import Mathlib

/-!
Shallow embedding of `Eigen/src/Core/StlIterators.h` (libigl/eigen-git-mirror).

Modelling conventions:
* `Index` (a signed integer) is modelled as `Int`; scalar element values as `Int`.
* Memory is a total map `Int → Int` from addresses to stored values.  A raw
  pointer is an `Int` address.  Pointer arithmetic on `T*` advances by one
  logical element per unit (element size is normalized to 1).
* A C++ reference/pointer to an expression (`XprType *mp_xpr`) is split into
  the pointer value itself (`mp_xpr_addr : Nat`, used by the identity
  assertions) and the pointee (`mp_xpr : X`, used by dereference); this is
  faithful because expressions are immutable in the model.
* `eigen_assert`: every member function whose source body contains an
  `eigen_assert` is modelled as `Option`-valued, returning `none` exactly when
  the asserted condition fails (the debug-build halt).  Member functions whose
  bodies contain no `eigen_assert` (all of `pointer_based_stl_iterator`'s
  comparisons and difference, lines 91-100) are likewise `Option`-valued so the
  two variants' contracts can be compared, and always return `some _`.
* C++ integer division truncates toward zero, so `operator-` of the
  pointer-based iterator (line 92) uses `Int.tdiv`.
-/

namespace Eigen

/-- Direction tag from Eigen's `Constants.h` (only the two values used by
`subvector_stl_iterator`): `Vertical` iterates columns, `Horizontal` rows. -/
inductive DirectionType where
  | Vertical
  | Horizontal
deriving DecidableEq

/-- A one-dimensional dense expression as consumed by the index-based
iterators: its by-index element access `operator()(Index)` and its element
count `size()`. -/
structure DenseXpr where
  coeff : Int → Int
  size : Nat

/-- A two-dimensional dense expression as consumed by
`subvector_stl_iterator`: its `operator()(row, col)` and its shape. -/
structure DenseXpr2D where
  coeff2 : Int → Int → Int
  rows : Nat
  cols : Nat

/-- Modelled from the spec: `subVector<Direction>(Index)` (declared on
`DenseBase`, outside this file) carves out the k-th row or column view of a
2-D expression — a `Vertical` sub-vector is column k (length = row count), a
`Horizontal` sub-vector is row k (length = column count), each view's element
access forwarding into the parent expression. -/
def DenseXpr2D.subVector (d : DirectionType) (x : DenseXpr2D) (k : Int) : DenseXpr :=
  match d with
  | .Vertical => { coeff := fun i => x.coeff2 i k, size := x.rows }
  | .Horizontal => { coeff := fun i => x.coeff2 k i, size := x.cols }

/-- Modelled from the spec: `subVectors<Direction>()` (declared on
`DenseBase`, outside this file) is the number of sub-vectors in the given
direction — the column count for `Vertical`, the row count for `Horizontal`
("index = the expression's row count (RowWise) or column count
(ColumnWise)"). -/
def DenseXpr2D.subVectors (d : DirectionType) (x : DenseXpr2D) : Nat :=
  match d with
  | .Vertical => x.cols
  | .Horizontal => x.rows

/-- A directly addressable (DirectAccessBit) one-dimensional expression: the
memory it lives in, its base address `data()`, its `innerStride()` (may be
negative), and its element count `size()`. -/
structure DirectXpr where
  mem : Int → Int
  dataAddr : Int
  innerStride : Int
  size : Nat

/-- Modelled from the spec: by-index element access of a directly addressable
expression (its evaluator lives outside this file).  Per the glossary —
"Direct addressable access: capability of an expression to expose a base
memory address and per-element stride" — element k lives at
`data() + k * innerStride()`. -/
def DirectXpr.coeff (x : DirectXpr) (k : Int) : Int :=
  x.mem (x.dataAddr + k * x.innerStride)

/-- The 1-D dense-expression view of a directly addressable expression (same
element access, same size). -/
def DirectXpr.toDense (x : DirectXpr) : DenseXpr :=
  { coeff := x.coeff, size := x.size }

/-- `internal::indexed_based_stl_iterator_base<XprType, Derived>` (lines
14-54): position is a logical index `m_index` into the bound expression
`mp_xpr` (a pointer, split here into address and pointee). -/
structure indexed_based_stl_iterator_base (X : Type) where
  mp_xpr_addr : Nat
  mp_xpr : X
  m_index : Int

namespace indexed_based_stl_iterator_base

variable {X : Type}

/-- Constructor `indexed_based_stl_iterator_base(XprType& xpr, Index index)`
(line 22); `addr` is the pointer value `&xpr`. -/
def ofXpr (addr : Nat) (xpr : X) (index : Int) : indexed_based_stl_iterator_base X :=
  { mp_xpr_addr := addr, mp_xpr := xpr, m_index := index }

/-- `operator++()` (line 24): `++m_index`. -/
def inc (it : indexed_based_stl_iterator_base X) : indexed_based_stl_iterator_base X :=
  { it with m_index := it.m_index + 1 }

/-- `operator--()` (line 25): `--m_index`. -/
def dec (it : indexed_based_stl_iterator_base X) : indexed_based_stl_iterator_base X :=
  { it with m_index := it.m_index - 1 }

/-- `operator++(int)` (line 27): returns the previous value and the advanced
iterator. -/
def postInc (it : indexed_based_stl_iterator_base X) :
    indexed_based_stl_iterator_base X × indexed_based_stl_iterator_base X :=
  (it, it.inc)

/-- `operator--(int)` (line 28): returns the previous value and the retreated
iterator. -/
def postDec (it : indexed_based_stl_iterator_base X) :
    indexed_based_stl_iterator_base X × indexed_based_stl_iterator_base X :=
  (it, it.dec)

/-- `operator+=(Index b)` (line 35): `m_index += b`. -/
def addAssign (it : indexed_based_stl_iterator_base X) (b : Int) :
    indexed_based_stl_iterator_base X :=
  { it with m_index := it.m_index + b }

/-- `operator-=(Index b)` (line 36): `m_index -= b`. -/
def subAssign (it : indexed_based_stl_iterator_base X) (b : Int) :
    indexed_based_stl_iterator_base X :=
  { it with m_index := it.m_index - b }

/-- `operator+(iterator, Index)` (line 30): copy, then `+=`. -/
def add (a : indexed_based_stl_iterator_base X) (b : Int) :
    indexed_based_stl_iterator_base X :=
  a.addAssign b

/-- `operator-(iterator, Index)` (line 31): copy, then `-=`. -/
def subIndex (a : indexed_based_stl_iterator_base X) (b : Int) :
    indexed_based_stl_iterator_base X :=
  a.subAssign b

/-- `operator+(Index, iterator)` (line 32): copy of the iterator, then `+=`. -/
def addRev (a : Int) (b : indexed_based_stl_iterator_base X) :
    indexed_based_stl_iterator_base X :=
  b.addAssign a

/-- `operator-(Index, iterator)` (line 33): copy of the iterator, then `-=`. -/
def subRev (a : Int) (b : indexed_based_stl_iterator_base X) :
    indexed_based_stl_iterator_base X :=
  b.subAssign a

/-- `operator-(const indexed_based_stl_iterator_base&)` (line 38):
`eigen_assert(mp_xpr == other.mp_xpr)`, then `m_index - other.m_index`. -/
def sub (a b : indexed_based_stl_iterator_base X) : Option Int :=
  if a.mp_xpr_addr = b.mp_xpr_addr then some (a.m_index - b.m_index) else none

/-- `operator==` (line 40): asserts same expression, compares indices. -/
def beq (a b : indexed_based_stl_iterator_base X) : Option Bool :=
  if a.mp_xpr_addr = b.mp_xpr_addr then some (decide (a.m_index = b.m_index)) else none

/-- `operator!=` (line 41): asserts same expression, compares indices. -/
def bne (a b : indexed_based_stl_iterator_base X) : Option Bool :=
  if a.mp_xpr_addr = b.mp_xpr_addr then some (decide (a.m_index ≠ b.m_index)) else none

/-- `operator<` (line 42): asserts same expression, compares indices. -/
def blt (a b : indexed_based_stl_iterator_base X) : Option Bool :=
  if a.mp_xpr_addr = b.mp_xpr_addr then some (decide (a.m_index < b.m_index)) else none

/-- `operator<=` (line 43): asserts same expression, compares indices. -/
def ble (a b : indexed_based_stl_iterator_base X) : Option Bool :=
  if a.mp_xpr_addr = b.mp_xpr_addr then some (decide (a.m_index ≤ b.m_index)) else none

/-- `operator>` (line 44): asserts same expression, compares indices. -/
def bgt (a b : indexed_based_stl_iterator_base X) : Option Bool :=
  if a.mp_xpr_addr = b.mp_xpr_addr then some (decide (b.m_index < a.m_index)) else none

/-- `operator>=` (line 45): asserts same expression, compares indices. -/
def bge (a b : indexed_based_stl_iterator_base X) : Option Bool :=
  if a.mp_xpr_addr = b.mp_xpr_addr then some (decide (b.m_index ≤ a.m_index)) else none

end indexed_based_stl_iterator_base

/-- `internal::pointer_based_stl_iterator<XprType>` (lines 56-106): position
is the raw address `m_ptr`; `m_incr` is the expression's inner stride.  The
memory map is carried along so dereference can read it. -/
structure pointer_based_stl_iterator where
  mem : Int → Int
  m_ptr : Int
  m_incr : Int

namespace pointer_based_stl_iterator

/-- Constructor `pointer_based_stl_iterator(XprType& xpr, Index index)`
(lines 68-71): `m_incr = xpr.innerStride()`,
`m_ptr = xpr.data() + index * m_incr`. -/
def ofXpr (xpr : DirectXpr) (index : Int) : pointer_based_stl_iterator :=
  { mem := xpr.mem
    m_ptr := xpr.dataAddr + index * xpr.innerStride
    m_incr := xpr.innerStride }

/-- `operator*()` (line 73): `*m_ptr`. -/
def deref (it : pointer_based_stl_iterator) : Int :=
  it.mem it.m_ptr

/-- `operator[](Index i)` (line 74): `*(m_ptr + i*m_incr)`. -/
def opIndex (it : pointer_based_stl_iterator) (i : Int) : Int :=
  it.mem (it.m_ptr + i * it.m_incr)

/-- `operator++()` (line 77): `m_ptr += m_incr`. -/
def inc (it : pointer_based_stl_iterator) : pointer_based_stl_iterator :=
  { it with m_ptr := it.m_ptr + it.m_incr }

/-- `operator--()` (line 78): `m_ptr -= m_incr`. -/
def dec (it : pointer_based_stl_iterator) : pointer_based_stl_iterator :=
  { it with m_ptr := it.m_ptr - it.m_incr }

/-- `operator+=(Index b)` (line 88): `m_ptr += b*m_incr`. -/
def addAssign (it : pointer_based_stl_iterator) (b : Int) : pointer_based_stl_iterator :=
  { it with m_ptr := it.m_ptr + b * it.m_incr }

/-- `operator-=(Index b)` (line 89): `m_ptr -= b*m_incr`. -/
def subAssign (it : pointer_based_stl_iterator) (b : Int) : pointer_based_stl_iterator :=
  { it with m_ptr := it.m_ptr - b * it.m_incr }

/-- `operator+(iterator, Index)` (line 83): copy, then `+=`. -/
def add (a : pointer_based_stl_iterator) (b : Int) : pointer_based_stl_iterator :=
  a.addAssign b

/-- `operator-(iterator, Index)` (line 84): copy, then `-=`. -/
def subIndex (a : pointer_based_stl_iterator) (b : Int) : pointer_based_stl_iterator :=
  a.subAssign b

/-- `operator-(const pointer_based_stl_iterator&)` (lines 91-93):
`(m_ptr - other.m_ptr) / m_incr` with C++ truncating division; the body
contains no `eigen_assert`, so the result is always `some _`. -/
def sub (a b : pointer_based_stl_iterator) : Option Int :=
  some (Int.tdiv (a.m_ptr - b.m_ptr) a.m_incr)

/-- `operator==` (line 95): compares raw addresses; no `eigen_assert`. -/
def beq (a b : pointer_based_stl_iterator) : Option Bool :=
  some (decide (a.m_ptr = b.m_ptr))

/-- `operator!=` (line 96): compares raw addresses; no `eigen_assert`. -/
def bne (a b : pointer_based_stl_iterator) : Option Bool :=
  some (decide (a.m_ptr ≠ b.m_ptr))

/-- `operator<` (line 97): compares raw addresses; no `eigen_assert`. -/
def blt (a b : pointer_based_stl_iterator) : Option Bool :=
  some (decide (a.m_ptr < b.m_ptr))

/-- `operator<=` (line 98): compares raw addresses; no `eigen_assert`. -/
def ble (a b : pointer_based_stl_iterator) : Option Bool :=
  some (decide (a.m_ptr ≤ b.m_ptr))

/-- `operator>` (line 99): compares raw addresses; no `eigen_assert`. -/
def bgt (a b : pointer_based_stl_iterator) : Option Bool :=
  some (decide (b.m_ptr < a.m_ptr))

/-- `operator>=` (line 100): compares raw addresses; no `eigen_assert`. -/
def bge (a b : pointer_based_stl_iterator) : Option Bool :=
  some (decide (b.m_ptr ≤ a.m_ptr))

end pointer_based_stl_iterator

/-- `internal::generic_randaccess_stl_iterator<XprType>` (lines 108-141)
inherits all state and arithmetic from
`indexed_based_stl_iterator_base<XprType, ...>`; only dereference is its
own. -/
def generic_randaccess_stl_iterator : Type :=
  indexed_based_stl_iterator_base DenseXpr

/-- `generic_randaccess_stl_iterator::operator*()` (line 138):
`(*mp_xpr)(m_index)`. -/
def generic_randaccess_stl_iterator.deref
    (it : indexed_based_stl_iterator_base DenseXpr) : Int :=
  it.mp_xpr.coeff it.m_index

/-- `generic_randaccess_stl_iterator::operator[](Index i)` (line 139):
`(*mp_xpr)(m_index + i)`. -/
def generic_randaccess_stl_iterator.opIndex
    (it : indexed_based_stl_iterator_base DenseXpr) (i : Int) : Int :=
  it.mp_xpr.coeff (it.m_index + i)

/-- `internal::subvector_stl_iterator<XprType, Direction>` (lines 143-168)
inherits all state and arithmetic from the index-based base; only dereference
is its own. -/
def subvector_stl_iterator (_d : DirectionType) : Type :=
  indexed_based_stl_iterator_base DenseXpr2D

/-- `subvector_stl_iterator::operator*()` (line 165):
`(*mp_xpr).subVector<Direction>(m_index)`. -/
def subvector_stl_iterator.deref (d : DirectionType)
    (it : indexed_based_stl_iterator_base DenseXpr2D) : DenseXpr :=
  DenseXpr2D.subVector d it.mp_xpr it.m_index

/-- `subvector_stl_iterator::operator[](Index i)` (line 166):
`(*mp_xpr).subVector<Direction>(m_index + i)`. -/
def subvector_stl_iterator.opIndex (d : DirectionType)
    (it : indexed_based_stl_iterator_base DenseXpr2D) (i : Int) : DenseXpr :=
  DenseXpr2D.subVector d it.mp_xpr (it.m_index + i)

/-- `DenseBase::begin()` / `cbegin()` (lines 177-200) for the case where the
strategy selector (the `iterator` typedef, declared outside this file) picks
the evaluated-index variant: `iterator(derived(), 0)`; `addr` is the pointer
value `&derived()`. -/
def DenseBase.beginGeneric (addr : Nat) (x : DenseXpr) :
    indexed_based_stl_iterator_base DenseXpr :=
  indexed_based_stl_iterator_base.ofXpr addr x 0

/-- `DenseBase::end()` / `cend()` (lines 202-229) for the evaluated-index
variant: `iterator(derived(), size())`; `size()` is re-read at call time. -/
def DenseBase.endGeneric (addr : Nat) (x : DenseXpr) :
    indexed_based_stl_iterator_base DenseXpr :=
  indexed_based_stl_iterator_base.ofXpr addr x (x.size : Int)

/-- `DenseBase::begin()` / `cbegin()` (lines 177-200) for the case where the
strategy selector picks the pointer-based variant: `iterator(derived(), 0)`. -/
def DenseBase.beginPtr (x : DirectXpr) : pointer_based_stl_iterator :=
  pointer_based_stl_iterator.ofXpr x 0

/-- `DenseBase::end()` / `cend()` (lines 202-229) for the pointer-based
variant: `iterator(derived(), size())`. -/
def DenseBase.endPtr (x : DirectXpr) : pointer_based_stl_iterator :=
  pointer_based_stl_iterator.ofXpr x (x.size : Int)

/-- `SubVectorsProxy<XprType, Direction>` (lines 231-248): holds the bound
expression (`m_xpr`, here split into pointer value and pointee). -/
structure SubVectorsProxy (d : DirectionType) where
  m_xpr_addr : Nat
  m_xpr : DenseXpr2D

/-- `SubVectorsProxy::begin()` / `cbegin()` (lines 240-241):
`iterator(m_xpr, 0)`. -/
def SubVectorsProxy.begin {d : DirectionType} (p : SubVectorsProxy d) :
    indexed_based_stl_iterator_base DenseXpr2D :=
  indexed_based_stl_iterator_base.ofXpr p.m_xpr_addr p.m_xpr 0

/-- `SubVectorsProxy::end()` / `cend()` (lines 243-244):
`iterator(m_xpr, m_xpr.subVectors<Direction>())`. -/
def SubVectorsProxy.endIter {d : DirectionType} (p : SubVectorsProxy d) :
    indexed_based_stl_iterator_base DenseXpr2D :=
  indexed_based_stl_iterator_base.ofXpr p.m_xpr_addr p.m_xpr
    (DenseXpr2D.subVectors d p.m_xpr : Int)

/-- `DenseBase::allRows()` (lines 258-264):
`SubVectorsProxy<Derived, Horizontal>(derived())`. -/
def DenseBase.allRows (addr : Nat) (x : DenseXpr2D) :
    SubVectorsProxy DirectionType.Horizontal :=
  { m_xpr_addr := addr, m_xpr := x }

/-- `DenseBase::allCols()` (lines 250-256):
`SubVectorsProxy<Derived, Vertical>(derived())`. -/
def DenseBase.allCols (addr : Nat) (x : DenseXpr2D) :
    SubVectorsProxy DirectionType.Vertical :=
  { m_xpr_addr := addr, m_xpr := x }

/-- The form in which dereference hands back an element: a writable reference
(`value_type&`) or a read-only value (`const value_type`, a copy). -/
inductive RefKind where
  | writableRef
  | readOnlyValue
deriving DecidableEq

/-- Modelled from the spec: `internal::is_lvalue<XprType>` (defined outside
this file) holds when the expression type is non-const (mutable) and carries
the LvalueBit, i.e. is directly addressable element-wise for writing
("Mutability classification: derived from whether the bound expression type
is itself mutable (an lvalue expression) vs. read-only"). -/
def is_lvalue (isMutable elementwiseAddressable : Bool) : Bool :=
  isMutable && elementwiseAddressable

/-- `generic_randaccess_stl_iterator::read_only_ref_t` (line 128): always
`const value_type` — a read-only value (copy).  The conditional on
`has_direct_access` (line 127) is commented out in the source, so the
argument is ignored. -/
def read_only_ref_t (_hasDirectAccess : Bool) : RefKind :=
  RefKind.readOnlyValue

/-- `generic_randaccess_stl_iterator::reference` (line 133):
`conditional<is_lvalue, value_type&, read_only_ref_t>`. -/
def generic_randaccess_reference (isLvalue hasDirectAccess : Bool) : RefKind :=
  if isLvalue then RefKind.writableRef else read_only_ref_t hasDirectAccess

/-- Memory holding list `l` starting at address `a0` (out-of-range reads
return 0); used to build concrete expressions. -/
def memOfList (l : List Int) (a0 : Int) : Int → Int :=
  fun a => l.getD (a - a0).toNat 0

/-- A concrete contiguous expression over [10, 20, 30, 40] at address 0. -/
def fwdXpr : DirectXpr :=
  { mem := memOfList [10, 20, 30, 40] 0, dataAddr := 0, innerStride := 1, size := 4 }

/-- A concrete reversed view: memory holds [40, 30, 20, 10] at addresses
0..3, the expression has inner stride -1 and base address 3 (the last
element), so its logical elements are [10, 20, 30, 40]. -/
def revXpr : DirectXpr :=
  { mem := memOfList [40, 30, 20, 10] 0, dataAddr := 3, innerStride := -1, size := 4 }

/-- A second concrete direct expression, at a different address than
`fwdXpr` (a distinct instance). -/
def otherXpr : DirectXpr :=
  { mem := memOfList [10, 20, 30, 40] 0, dataAddr := 100, innerStride := 1, size := 4 }

/-- A concrete 1-D dense expression with elements [10, 20, 30, 40]. -/
def denseListXpr : DenseXpr :=
  { coeff := fun k => [10, 20, 30, 40].getD k.toNat 0, size := 4 }

/-- A concrete 2-D dense expression with 3 rows and 2 columns, entry
(r, c) = 10*r + c. -/
def dense2DXpr : DenseXpr2D :=
  { coeff2 := fun r c => 10 * r + c, rows := 3, cols := 2 }

/-- C1: for every expression to which both strategies are applicable (a
directly addressable expression) and every logical index k in [0, size),
dereferencing the pointer-based iterator positioned at k and dereferencing
the evaluated-index iterator positioned at k both yield the expression's
by-index element access at k. -/
theorem C1_strategies_agree (x : DirectXpr) (a : Nat) (k : Int)
    (hk : 0 ≤ k ∧ k < (x.size : Int)) :
    (pointer_based_stl_iterator.ofXpr x k).deref = x.coeff k ∧
    generic_randaccess_stl_iterator.deref
      (indexed_based_stl_iterator_base.ofXpr a x.toDense k) = x.coeff k := by
  exact ⟨rfl, rfl⟩

/-- Witness for C1 at `fwdXpr`, k = 2. -/
theorem C1_strategies_agree_witness :
    (pointer_based_stl_iterator.ofXpr fwdXpr 2).deref = fwdXpr.coeff 2 ∧
    generic_randaccess_stl_iterator.deref
      (indexed_based_stl_iterator_base.ofXpr 7 fwdXpr.toDense 2) = fwdXpr.coeff 2 :=
  C1_strategies_agree fwdXpr 7 2 (by constructor <;> decide)

/-- C2: for a one-dimensional expression, begin() == end() holds iff the
element count is zero, and end() - begin() equals the element count, for
both the evaluated-index variant (any dense expression `x`) and the
pointer-based variant (any directly addressable expression `y` with a
nonzero inner stride). -/
theorem C2_begin_end (a : Nat) (x : DenseXpr) (y : DirectXpr)
    (hs : y.innerStride ≠ 0) :
    ((DenseBase.beginGeneric a x).beq (DenseBase.endGeneric a x) = some true ↔
      x.size = 0) ∧
    (DenseBase.endGeneric a x).sub (DenseBase.beginGeneric a x) = some (x.size : Int) ∧
    ((DenseBase.beginPtr y).beq (DenseBase.endPtr y) = some true ↔ y.size = 0) ∧
    (DenseBase.endPtr y).sub (DenseBase.beginPtr y) = some (y.size : Int) := by
  refine ⟨?_, ?_, ?_, ?_⟩
  · simp [DenseBase.beginGeneric, DenseBase.endGeneric,
      indexed_based_stl_iterator_base.beq, indexed_based_stl_iterator_base.ofXpr]
    omega
  · simp [DenseBase.beginGeneric, DenseBase.endGeneric,
      indexed_based_stl_iterator_base.sub, indexed_based_stl_iterator_base.ofXpr]
  · simp [DenseBase.beginPtr, DenseBase.endPtr, pointer_based_stl_iterator.beq,
      pointer_based_stl_iterator.ofXpr]
    intro h
    exact absurd h hs
  · simp [DenseBase.beginPtr, DenseBase.endPtr, pointer_based_stl_iterator.sub,
      pointer_based_stl_iterator.ofXpr]
    exact Int.mul_tdiv_cancel _ hs

/-- Witness for C2 at the concrete expressions `denseListXpr` and `fwdXpr`. -/
theorem C2_begin_end_witness :
    ((DenseBase.beginGeneric 7 denseListXpr).beq (DenseBase.endGeneric 7 denseListXpr)
        = some true ↔ denseListXpr.size = 0) ∧
    (DenseBase.endGeneric 7 denseListXpr).sub (DenseBase.beginGeneric 7 denseListXpr)
      = some (denseListXpr.size : Int) ∧
    ((DenseBase.beginPtr fwdXpr).beq (DenseBase.endPtr fwdXpr) = some true ↔
      fwdXpr.size = 0) ∧
    (DenseBase.endPtr fwdXpr).sub (DenseBase.beginPtr fwdXpr) = some (fwdXpr.size : Int) :=
  C2_begin_end 7 denseListXpr fwdXpr (by decide)

/-- C3: for every index-based iterator and every pointer-based iterator with
nonzero stride, it + i is a new iterator advanced by i positions (the
original is untouched in this functional model; the new iterator's position
fields are stated explicitly), and (it + i) - it = i. -/
theorem C3_offset_difference {X : Type} (it : indexed_based_stl_iterator_base X)
    (p : pointer_based_stl_iterator) (i : Int) (hp : p.m_incr ≠ 0) :
    (it.add i).m_index = it.m_index + i ∧
    (it.add i).mp_xpr_addr = it.mp_xpr_addr ∧
    (it.add i).mp_xpr = it.mp_xpr ∧
    (it.add i).sub it = some i ∧
    (p.add i).m_ptr = p.m_ptr + i * p.m_incr ∧
    (p.add i).m_incr = p.m_incr ∧
    (p.add i).sub p = some i := by
  refine ⟨rfl, rfl, rfl, ?_, rfl, rfl, ?_⟩
  · simp [indexed_based_stl_iterator_base.add, indexed_based_stl_iterator_base.addAssign,
      indexed_based_stl_iterator_base.sub]
  · simp [pointer_based_stl_iterator.add, pointer_based_stl_iterator.addAssign,
      pointer_based_stl_iterator.sub]
    exact Int.mul_tdiv_cancel _ hp

/-- Witness for C3 at a concrete index-based iterator over `denseListXpr`
and the pointer-based iterator of `revXpr` (stride -1), with i = 2. -/
theorem C3_offset_difference_witness :
    (((indexed_based_stl_iterator_base.ofXpr 7 denseListXpr 1).add 2).m_index
      = (indexed_based_stl_iterator_base.ofXpr 7 denseListXpr 1).m_index + 2) ∧
    (((indexed_based_stl_iterator_base.ofXpr 7 denseListXpr 1).add 2).mp_xpr_addr
      = (indexed_based_stl_iterator_base.ofXpr 7 denseListXpr 1).mp_xpr_addr) ∧
    (((indexed_based_stl_iterator_base.ofXpr 7 denseListXpr 1).add 2).mp_xpr
      = (indexed_based_stl_iterator_base.ofXpr 7 denseListXpr 1).mp_xpr) ∧
    (((indexed_based_stl_iterator_base.ofXpr 7 denseListXpr 1).add 2).sub
      (indexed_based_stl_iterator_base.ofXpr 7 denseListXpr 1) = some 2) ∧
    (((DenseBase.beginPtr revXpr).add 2).m_ptr
      = (DenseBase.beginPtr revXpr).m_ptr + 2 * (DenseBase.beginPtr revXpr).m_incr) ∧
    (((DenseBase.beginPtr revXpr).add 2).m_incr = (DenseBase.beginPtr revXpr).m_incr) ∧
    (((DenseBase.beginPtr revXpr).add 2).sub (DenseBase.beginPtr revXpr) = some 2) :=
  C3_offset_difference (indexed_based_stl_iterator_base.ofXpr 7 denseListXpr 1)
    (DenseBase.beginPtr revXpr) 2 (by decide)

/-- C10: every arithmetic operation of the index-based iterator base —
pre/post increment and decrement, +=, -=, and offset by an integer in either
operand order — changes only the logical index and leaves the stored
expression pointer and pointee unchanged. -/
theorem C10_arithmetic_frame {X : Type} (it : indexed_based_stl_iterator_base X)
    (b : Int) :
    (it.inc.mp_xpr_addr = it.mp_xpr_addr ∧ it.inc.mp_xpr = it.mp_xpr ∧
      it.inc.m_index = it.m_index + 1) ∧
    (it.dec.mp_xpr_addr = it.mp_xpr_addr ∧ it.dec.mp_xpr = it.mp_xpr ∧
      it.dec.m_index = it.m_index - 1) ∧
    (it.postInc.2.mp_xpr_addr = it.mp_xpr_addr ∧ it.postInc.2.mp_xpr = it.mp_xpr ∧
      it.postInc.1 = it) ∧
    (it.postDec.2.mp_xpr_addr = it.mp_xpr_addr ∧ it.postDec.2.mp_xpr = it.mp_xpr ∧
      it.postDec.1 = it) ∧
    ((it.addAssign b).mp_xpr_addr = it.mp_xpr_addr ∧
      (it.addAssign b).mp_xpr = it.mp_xpr ∧
      (it.addAssign b).m_index = it.m_index + b) ∧
    ((it.subAssign b).mp_xpr_addr = it.mp_xpr_addr ∧
      (it.subAssign b).mp_xpr = it.mp_xpr ∧
      (it.subAssign b).m_index = it.m_index - b) ∧
    ((it.add b).mp_xpr_addr = it.mp_xpr_addr ∧ (it.add b).mp_xpr = it.mp_xpr) ∧
    ((it.subIndex b).mp_xpr_addr = it.mp_xpr_addr ∧
      (it.subIndex b).mp_xpr = it.mp_xpr) ∧
    ((indexed_based_stl_iterator_base.addRev b it).mp_xpr_addr = it.mp_xpr_addr ∧
      (indexed_based_stl_iterator_base.addRev b it).mp_xpr = it.mp_xpr) ∧
    ((indexed_based_stl_iterator_base.subRev b it).mp_xpr_addr = it.mp_xpr_addr ∧
      (indexed_based_stl_iterator_base.subRev b it).mp_xpr = it.mp_xpr) := by
  exact ⟨⟨rfl, rfl, rfl⟩, ⟨rfl, rfl, rfl⟩, ⟨rfl, rfl, rfl⟩, ⟨rfl, rfl, rfl⟩,
    ⟨rfl, rfl, rfl⟩, ⟨rfl, rfl, rfl⟩, ⟨rfl, rfl⟩, ⟨rfl, rfl⟩, ⟨rfl, rfl⟩, ⟨rfl, rfl⟩⟩

/-- C4: evaluated-index dereference calls the expression's by-index element
access at the current logical index (and at index + i for offset-indexing);
the reference form is a writable reference exactly when the expression is
mutable and element-wise addressable for writing (Eigen's is_lvalue), and a
read-only value (copy) otherwise — in particular the DirectAccessBit
argument is ignored by read_only_ref_t (its conditional is commented out in
the source). -/
theorem C4_deref_and_reference_kind (it : indexed_based_stl_iterator_base DenseXpr)
    (i : Int) (isMutable elementwiseAddressable hasDirectAccess : Bool) :
    generic_randaccess_stl_iterator.deref it = it.mp_xpr.coeff it.m_index ∧
    generic_randaccess_stl_iterator.opIndex it i = it.mp_xpr.coeff (it.m_index + i) ∧
    (generic_randaccess_reference (is_lvalue isMutable elementwiseAddressable)
        hasDirectAccess
      = if isMutable && elementwiseAddressable then RefKind.writableRef
        else RefKind.readOnlyValue) := by
  refine ⟨rfl, rfl, ?_⟩
  cases isMutable <;> cases elementwiseAddressable <;> rfl

/-- C5 counterexample: two pointer-based iterators built from different
expression instances (`fwdXpr` at address 0 and `otherXpr` at address 100).
The claim says comparing or differencing them signals an assertion (modelled
as `none`); in fact the pointer-based operators contain no assertion and
return a value. -/
theorem C5_counterexample :
    (DenseBase.beginPtr fwdXpr).sub (DenseBase.beginPtr otherXpr) = some (-100) ∧
    (DenseBase.beginPtr fwdXpr).sub (DenseBase.beginPtr otherXpr) ≠ none ∧
    (DenseBase.beginPtr fwdXpr).beq (DenseBase.beginPtr otherXpr) = some false ∧
    (DenseBase.beginPtr fwdXpr).blt (DenseBase.beginPtr otherXpr) = some true := by
  refine ⟨rfl, ?_, rfl, rfl⟩
  exact fun h => Option.noConfusion h

/-- C5 amended: for the index-based iterator variants (evaluated-index and
sub-vector, which share this base), every comparison and the difference on
two iterators bound to different expression instances signals the violation
via the debug-build assertion (modelled as `none`); the pointer-based
variant performs no such check and always returns a result. -/
theorem C5_assert_on_mismatch {X : Type} (a b : indexed_based_stl_iterator_base X)
    (h : a.mp_xpr_addr ≠ b.mp_xpr_addr) (p q : pointer_based_stl_iterator) :
    a.sub b = none ∧ a.beq b = none ∧ a.bne b = none ∧ a.blt b = none ∧
    a.ble b = none ∧ a.bgt b = none ∧ a.bge b = none ∧
    (p.sub q).isSome = true ∧ (p.beq q).isSome = true ∧ (p.bne q).isSome = true ∧
    (p.blt q).isSome = true ∧ (p.ble q).isSome = true ∧ (p.bgt q).isSome = true ∧
    (p.bge q).isSome = true := by
  refine ⟨?_, ?_, ?_, ?_, ?_, ?_, ?_, rfl, rfl, rfl, rfl, rfl, rfl, rfl⟩ <;>
    simp [indexed_based_stl_iterator_base.sub, indexed_based_stl_iterator_base.beq,
      indexed_based_stl_iterator_base.bne, indexed_based_stl_iterator_base.blt,
      indexed_based_stl_iterator_base.ble, indexed_based_stl_iterator_base.bgt,
      indexed_based_stl_iterator_base.bge, h]

/-- Witness for the amended C5 at concrete mismatched index-based iterators
(addresses 1 and 2) and concrete pointer-based iterators. -/
theorem C5_assert_on_mismatch_witness :
    (indexed_based_stl_iterator_base.ofXpr 1 denseListXpr 0).sub
      (indexed_based_stl_iterator_base.ofXpr 2 denseListXpr 3) = none ∧
    (indexed_based_stl_iterator_base.ofXpr 1 denseListXpr 0).beq
      (indexed_based_stl_iterator_base.ofXpr 2 denseListXpr 3) = none ∧
    (indexed_based_stl_iterator_base.ofXpr 1 denseListXpr 0).bne
      (indexed_based_stl_iterator_base.ofXpr 2 denseListXpr 3) = none ∧
    (indexed_based_stl_iterator_base.ofXpr 1 denseListXpr 0).blt
      (indexed_based_stl_iterator_base.ofXpr 2 denseListXpr 3) = none ∧
    (indexed_based_stl_iterator_base.ofXpr 1 denseListXpr 0).ble
      (indexed_based_stl_iterator_base.ofXpr 2 denseListXpr 3) = none ∧
    (indexed_based_stl_iterator_base.ofXpr 1 denseListXpr 0).bgt
      (indexed_based_stl_iterator_base.ofXpr 2 denseListXpr 3) = none ∧
    (indexed_based_stl_iterator_base.ofXpr 1 denseListXpr 0).bge
      (indexed_based_stl_iterator_base.ofXpr 2 denseListXpr 3) = none ∧
    ((DenseBase.beginPtr fwdXpr).sub (DenseBase.beginPtr otherXpr)).isSome = true ∧
    ((DenseBase.beginPtr fwdXpr).beq (DenseBase.beginPtr otherXpr)).isSome = true ∧
    ((DenseBase.beginPtr fwdXpr).bne (DenseBase.beginPtr otherXpr)).isSome = true ∧
    ((DenseBase.beginPtr fwdXpr).blt (DenseBase.beginPtr otherXpr)).isSome = true ∧
    ((DenseBase.beginPtr fwdXpr).ble (DenseBase.beginPtr otherXpr)).isSome = true ∧
    ((DenseBase.beginPtr fwdXpr).bgt (DenseBase.beginPtr otherXpr)).isSome = true ∧
    ((DenseBase.beginPtr fwdXpr).bge (DenseBase.beginPtr otherXpr)).isSome = true :=
  C5_assert_on_mismatch (indexed_based_stl_iterator_base.ofXpr 1 denseListXpr 0)
    (indexed_based_stl_iterator_base.ofXpr 2 denseListXpr 3) (by decide)
    (DenseBase.beginPtr fwdXpr) (DenseBase.beginPtr otherXpr)

/-- C6: the pointer-based difference is (ptrA - ptrB) / stride with C++
truncating division; it is exact (equal to the logical index difference)
whenever both iterators derive from the same base and stride; and on a
mismatched pair (`fwdXpr` at base 0 vs `otherXpr` at base 100, both at
logical position 0) it completes without any trap and returns -100, not the
correct logical difference 0. -/
theorem C6_pointer_difference (p q : pointer_based_stl_iterator) (x : DirectXpr)
    (i j : Int) (hs : x.innerStride ≠ 0) :
    p.sub q = some (Int.tdiv (p.m_ptr - q.m_ptr) p.m_incr) ∧
    (pointer_based_stl_iterator.ofXpr x i).sub (pointer_based_stl_iterator.ofXpr x j)
      = some (i - j) ∧
    (DenseBase.beginPtr fwdXpr).sub (DenseBase.beginPtr otherXpr) = some (-100) ∧
    (-100 : Int) ≠ 0 - 0 := by
  refine ⟨rfl, ?_, rfl, by decide⟩
  simp [pointer_based_stl_iterator.ofXpr, pointer_based_stl_iterator.sub]
  rw [show i * x.innerStride - j * x.innerStride = (i - j) * x.innerStride by ring]
  exact Int.mul_tdiv_cancel _ hs

/-- Witness for C6 at `revXpr` (stride -1), i = 3, j = 1. -/
theorem C6_pointer_difference_witness :
    (DenseBase.beginPtr revXpr).sub (DenseBase.endPtr revXpr)
      = some (Int.tdiv ((DenseBase.beginPtr revXpr).m_ptr
          - (DenseBase.endPtr revXpr).m_ptr) (DenseBase.beginPtr revXpr).m_incr) ∧
    (pointer_based_stl_iterator.ofXpr revXpr 3).sub
      (pointer_based_stl_iterator.ofXpr revXpr 1) = some (3 - 1) ∧
    (DenseBase.beginPtr fwdXpr).sub (DenseBase.beginPtr otherXpr) = some (-100) ∧
    (-100 : Int) ≠ 0 - 0 :=
  C6_pointer_difference (DenseBase.beginPtr revXpr) (DenseBase.endPtr revXpr)
    revXpr 3 1 (by decide)

/-- C7: for every directly addressable expression with inner stride -1 whose
base address points at the last element of the underlying buffer `l` (an
arbitrary nonempty list stored at addresses a0, a0+1, ...), begin()[0] is
the buffer's last element and begin()[size - 1] is its first element. -/
theorem C7_reverse_stride (l : List Int) (a0 : Int) (h : l ≠ []) :
    (DenseBase.beginPtr
        { mem := memOfList l a0, dataAddr := a0 + (l.length : Int) - 1,
          innerStride := -1, size := l.length }).opIndex 0
      = l.getD (l.length - 1) 0 ∧
    (DenseBase.beginPtr
        { mem := memOfList l a0, dataAddr := a0 + (l.length : Int) - 1,
          innerStride := -1, size := l.length }).opIndex ((l.length : Int) - 1)
      = l.getD 0 0 := by
  constructor
  · simp only [DenseBase.beginPtr, pointer_based_stl_iterator.ofXpr,
      pointer_based_stl_iterator.opIndex, memOfList]
    congr 1
    omega
  · simp only [DenseBase.beginPtr, pointer_based_stl_iterator.ofXpr,
      pointer_based_stl_iterator.opIndex, memOfList]
    congr 1
    omega

/-- Witness for C7 at the buffer [40, 30, 20, 10] stored at address 0: the
reversed view's begin()[0] is 10 (the buffer's last element) and
begin()[3] is 40 (its first). -/
theorem C7_reverse_stride_witness :
    (DenseBase.beginPtr
        { mem := memOfList [40, 30, 20, 10] 0,
          dataAddr := (0 : Int) + (([40, 30, 20, 10] : List Int).length : Int) - 1,
          innerStride := -1, size := ([40, 30, 20, 10] : List Int).length }).opIndex 0
      = ([40, 30, 20, 10] : List Int).getD (([40, 30, 20, 10] : List Int).length - 1) 0 ∧
    (DenseBase.beginPtr
        { mem := memOfList [40, 30, 20, 10] 0,
          dataAddr := (0 : Int) + (([40, 30, 20, 10] : List Int).length : Int) - 1,
          innerStride := -1, size := ([40, 30, 20, 10] : List Int).length }).opIndex
        ((([40, 30, 20, 10] : List Int).length : Int) - 1)
      = ([40, 30, 20, 10] : List Int).getD 0 0 :=
  C7_reverse_stride [40, 30, 20, 10] 0 (by decide)

/-- C8: for a 2-D expression with R rows and C columns, the RowWise range
(allRows, Horizontal) starts at index 0, ends at index R, spans exactly R
positions, and dereferencing at position r yields the view whose element j
is the expression's entry (r, j) and whose length is C; the ColumnWise range
(allCols, Vertical) similarly starts at 0, ends at C, spans C positions, and
its view at position c has element i equal to entry (i, c) and length R. -/
theorem C8_subvector_ranges (a : Nat) (x : DenseXpr2D) (r c j i : Int)
    (hr : 0 ≤ r ∧ r < (x.rows : Int)) (hc : 0 ≤ c ∧ c < (x.cols : Int)) :
    (DenseBase.allRows a x).begin.m_index = 0 ∧
    (DenseBase.allRows a x).endIter.m_index = (x.rows : Int) ∧
    (DenseBase.allRows a x).endIter.sub (DenseBase.allRows a x).begin
      = some (x.rows : Int) ∧
    (subvector_stl_iterator.deref DirectionType.Horizontal
        ((DenseBase.allRows a x).begin.add r)).coeff j = x.coeff2 r j ∧
    (subvector_stl_iterator.deref DirectionType.Horizontal
        ((DenseBase.allRows a x).begin.add r)).size = x.cols ∧
    (DenseBase.allCols a x).begin.m_index = 0 ∧
    (DenseBase.allCols a x).endIter.m_index = (x.cols : Int) ∧
    (DenseBase.allCols a x).endIter.sub (DenseBase.allCols a x).begin
      = some (x.cols : Int) ∧
    (subvector_stl_iterator.deref DirectionType.Vertical
        ((DenseBase.allCols a x).begin.add c)).coeff i = x.coeff2 i c ∧
    (subvector_stl_iterator.deref DirectionType.Vertical
        ((DenseBase.allCols a x).begin.add c)).size = x.rows := by
  refine ⟨rfl, rfl, ?_, ?_, rfl, rfl, rfl, ?_, ?_, rfl⟩
  · simp [SubVectorsProxy.begin, SubVectorsProxy.endIter, DenseBase.allRows,
      indexed_based_stl_iterator_base.ofXpr, indexed_based_stl_iterator_base.sub,
      DenseXpr2D.subVectors]
  · simp [SubVectorsProxy.begin, DenseBase.allRows, subvector_stl_iterator.deref,
      DenseXpr2D.subVector, indexed_based_stl_iterator_base.ofXpr,
      indexed_based_stl_iterator_base.add, indexed_based_stl_iterator_base.addAssign]
  · simp [SubVectorsProxy.begin, SubVectorsProxy.endIter, DenseBase.allCols,
      indexed_based_stl_iterator_base.ofXpr, indexed_based_stl_iterator_base.sub,
      DenseXpr2D.subVectors]
  · simp [SubVectorsProxy.begin, DenseBase.allCols, subvector_stl_iterator.deref,
      DenseXpr2D.subVector, indexed_based_stl_iterator_base.ofXpr,
      indexed_based_stl_iterator_base.add, indexed_based_stl_iterator_base.addAssign]

/-- Witness for C8 at the concrete 3-by-2 expression `dense2DXpr` with
r = 2, c = 1, j = 1, i = 2. -/
theorem C8_subvector_ranges_witness :
    (DenseBase.allRows 7 dense2DXpr).begin.m_index = 0 ∧
    (DenseBase.allRows 7 dense2DXpr).endIter.m_index = (dense2DXpr.rows : Int) ∧
    (DenseBase.allRows 7 dense2DXpr).endIter.sub (DenseBase.allRows 7 dense2DXpr).begin
      = some (dense2DXpr.rows : Int) ∧
    (subvector_stl_iterator.deref DirectionType.Horizontal
        ((DenseBase.allRows 7 dense2DXpr).begin.add 2)).coeff 1
      = dense2DXpr.coeff2 2 1 ∧
    (subvector_stl_iterator.deref DirectionType.Horizontal
        ((DenseBase.allRows 7 dense2DXpr).begin.add 2)).size = dense2DXpr.cols ∧
    (DenseBase.allCols 7 dense2DXpr).begin.m_index = 0 ∧
    (DenseBase.allCols 7 dense2DXpr).endIter.m_index = (dense2DXpr.cols : Int) ∧
    (DenseBase.allCols 7 dense2DXpr).endIter.sub (DenseBase.allCols 7 dense2DXpr).begin
      = some (dense2DXpr.cols : Int) ∧
    (subvector_stl_iterator.deref DirectionType.Vertical
        ((DenseBase.allCols 7 dense2DXpr).begin.add 1)).coeff 2
      = dense2DXpr.coeff2 2 1 ∧
    (subvector_stl_iterator.deref DirectionType.Vertical
        ((DenseBase.allCols 7 dense2DXpr).begin.add 1)).size = dense2DXpr.rows :=
  C8_subvector_ranges 7 dense2DXpr 2 1 1 2
    (by constructor <;> decide) (by constructor <;> decide)

/-- C9 counterexample: `revXpr` is a directly addressable expression whose
logical elements are [10, 20, 30, 40] (its storage is reversed: inner stride
-1).  The claim asserts (begin()+1) < (begin()+3) is true regardless of
stride sign, but the pointer-based operator< compares raw addresses, and
with a negative stride begin()+1 sits at a higher address than begin()+3, so
the comparison is false. -/
theorem C9_counterexample :
    revXpr.coeff 0 = 10 ∧ revXpr.coeff 1 = 20 ∧ revXpr.coeff 2 = 30 ∧
    revXpr.coeff 3 = 40 ∧ revXpr.size = 4 ∧ revXpr.innerStride = -1 ∧
    ((DenseBase.beginPtr revXpr).add 1).blt ((DenseBase.beginPtr revXpr).add 3)
      = some false := by
  refine ⟨rfl, rfl, rfl, rfl, rfl, rfl, rfl⟩

/-- C9 amended: for a 1-D expression with logical elements [10, 20, 30, 40],
begin() dereferences to 10, begin()+2 dereferences to 30, and end()-begin()
equals 4, for both variants and any stride sign; but (begin()+1) <
(begin()+3) is address-based for the pointer variant — it equals the sign
test 0 < innerStride (so it is false for a reversed, negative-stride
layout) — while for the evaluated-index variant it is always true. -/
theorem C9_concrete_scenario (x : DirectXpr) (a : Nat) (y : DenseXpr)
    (hx : x.innerStride ≠ 0 ∧ x.coeff 0 = 10 ∧ x.coeff 2 = 30 ∧ x.size = 4)
    (hy : y.coeff 0 = 10 ∧ y.coeff 2 = 30 ∧ y.size = 4) :
    (DenseBase.beginPtr x).deref = 10 ∧
    ((DenseBase.beginPtr x).add 2).deref = 30 ∧
    (DenseBase.endPtr x).sub (DenseBase.beginPtr x) = some 4 ∧
    ((DenseBase.beginPtr x).add 1).blt ((DenseBase.beginPtr x).add 3)
      = some (decide (0 < x.innerStride)) ∧
    generic_randaccess_stl_iterator.deref (DenseBase.beginGeneric a y) = 10 ∧
    generic_randaccess_stl_iterator.deref ((DenseBase.beginGeneric a y).add 2) = 30 ∧
    (DenseBase.endGeneric a y).sub (DenseBase.beginGeneric a y) = some 4 ∧
    ((DenseBase.beginGeneric a y).add 1).blt ((DenseBase.beginGeneric a y).add 3)
      = some true := by
  obtain ⟨hs, hx0, hx2, hxsz⟩ := hx
  obtain ⟨hy0, hy2, hysz⟩ := hy
  refine ⟨?_, ?_, ?_, ?_, ?_, ?_, ?_, ?_⟩
  · rw [← hx0]
    simp [DenseBase.beginPtr, pointer_based_stl_iterator.ofXpr,
      pointer_based_stl_iterator.deref, DirectXpr.coeff]
  · rw [← hx2]
    simp [DenseBase.beginPtr, pointer_based_stl_iterator.ofXpr,
      pointer_based_stl_iterator.deref, pointer_based_stl_iterator.add,
      pointer_based_stl_iterator.addAssign, DirectXpr.coeff]
  · simp [DenseBase.beginPtr, DenseBase.endPtr, pointer_based_stl_iterator.ofXpr,
      pointer_based_stl_iterator.sub, hxsz]
    exact Int.mul_tdiv_cancel 4 hs
  · simp [DenseBase.beginPtr, pointer_based_stl_iterator.ofXpr,
      pointer_based_stl_iterator.add, pointer_based_stl_iterator.addAssign,
      pointer_based_stl_iterator.blt]
    constructor <;> intro h <;> omega
  · rw [← hy0]
    rfl
  · rw [← hy2]
    simp [DenseBase.beginGeneric, indexed_based_stl_iterator_base.ofXpr,
      indexed_based_stl_iterator_base.add, indexed_based_stl_iterator_base.addAssign,
      generic_randaccess_stl_iterator.deref]
  · simp [DenseBase.beginGeneric, DenseBase.endGeneric,
      indexed_based_stl_iterator_base.ofXpr, indexed_based_stl_iterator_base.sub, hysz]
  · simp [DenseBase.beginGeneric, indexed_based_stl_iterator_base.ofXpr,
      indexed_based_stl_iterator_base.add, indexed_based_stl_iterator_base.addAssign,
      indexed_based_stl_iterator_base.blt]

/-- Witness for the amended C9 at the contiguous expression `fwdXpr`
(stride +1, where the pointer comparison is true) and at `denseListXpr`. -/
theorem C9_concrete_scenario_witness :
    (DenseBase.beginPtr fwdXpr).deref = 10 ∧
    ((DenseBase.beginPtr fwdXpr).add 2).deref = 30 ∧
    (DenseBase.endPtr fwdXpr).sub (DenseBase.beginPtr fwdXpr) = some 4 ∧
    ((DenseBase.beginPtr fwdXpr).add 1).blt ((DenseBase.beginPtr fwdXpr).add 3)
      = some (decide (0 < fwdXpr.innerStride)) ∧
    generic_randaccess_stl_iterator.deref (DenseBase.beginGeneric 7 denseListXpr) = 10 ∧
    generic_randaccess_stl_iterator.deref
      ((DenseBase.beginGeneric 7 denseListXpr).add 2) = 30 ∧
    (DenseBase.endGeneric 7 denseListXpr).sub (DenseBase.beginGeneric 7 denseListXpr)
      = some 4 ∧
    ((DenseBase.beginGeneric 7 denseListXpr).add 1).blt
      ((DenseBase.beginGeneric 7 denseListXpr).add 3) = some true :=
  C9_concrete_scenario fwdXpr 7 denseListXpr
    (by refine ⟨by decide, rfl, rfl, rfl⟩) ⟨rfl, rfl, rfl⟩
